import Mathlib

/-!
Shallow embedding of the database-resident logic of the nosht event-ticketing
application (the SQL migration shipped in the repository): the reservation
capacity function `check_tickets_remaining`, the `update_user_ts` trigger on
the `actions` table, and the `full_name` display-name derivation.

Tables are modelled as lists of rows; SQL `NULL`-able strings as
`Option String`; timestamps and counters as `Int` (seconds).
-/

namespace Nosht

/-- Ticket status enumeration: `reserved`, `paid`, `cancelled`. -/
inductive TicketStatus
  | reserved
  | paid
  | cancelled
deriving DecidableEq, Repr

/-- A row of the `tickets` table: owning event id, status, creation timestamp
(seconds). -/
structure Ticket where
  id : Nat
  event : Nat
  status : TicketStatus
  created_ts : Int
deriving DecidableEq, Repr

/-- A row of the `events` table: `ticket_limit` and the cached
`tickets_taken` counter. -/
structure Event where
  id : Nat
  ticket_limit : Int
  tickets_taken : Int
deriving DecidableEq, Repr

/-- The database state the reservation function operates on. -/
structure DB where
  events : List Event
  tickets : List Ticket
deriving DecidableEq, Repr

/-- Condition of the `DELETE` statement:
`status='reserved' AND event=event_id AND now() - created_ts > (ttl || ' seconds')::interval`. -/
def isExpiredReserved (event_id : Nat) (ttl now : Int) (t : Ticket) : Bool :=
  decide (t.status = TicketStatus.reserved ∧ t.event = event_id ∧ now - t.created_ts > ttl)

/-- Condition of the counting `SELECT`: `event=event_id AND status != 'cancelled'`. -/
def isTaken (event_id : Nat) (t : Ticket) : Bool :=
  decide (t.event = event_id ∧ t.status ≠ TicketStatus.cancelled)

/-- The `DELETE FROM tickets WHERE ...` sweep: removes the expired reserved
tickets of the event, keeps everything else. -/
def sweep_expired (event_id : Nat) (ttl now : Int) (tickets : List Ticket) : List Ticket :=
  tickets.filter fun t => ! isExpiredReserved event_id ttl now t

/-- The `SELECT coalesce(COUNT(*), 0) ... WHERE event=event_id AND status != 'cancelled'`
recount (`COUNT(*)` over a list of rows is its length, never `NULL`). -/
def count_taken (event_id : Nat) (tickets : List Ticket) : Int :=
  ((tickets.filter fun t => isTaken event_id t).length : Int)

/-- The `UPDATE events SET tickets_taken=tickets_taken_ WHERE id=event_id`. -/
def set_tickets_taken (event_id : Nat) (n : Int) (events : List Event) : List Event :=
  events.map fun e => if e.id = event_id then { e with tickets_taken := n } else e

/-- The final `(SELECT ticket_limit - tickets_taken FROM events WHERE id=event_id)`:
`none` models the `NULL` a row-less scalar subquery yields. -/
def select_remaining (event_id : Nat) (events : List Event) : Option Int :=
  (events.find? fun e => e.id == event_id).map fun e => e.ticket_limit - e.tickets_taken

/-- `check_tickets_remaining(event_id INT, ttl INT) RETURNS INT`: sweep expired
reservations, recount non-cancelled tickets, persist the count on the event
row, and return the remaining capacity.  The plpgsql body raises no error:
on a missing event the `DELETE`/`UPDATE` match nothing and the final scalar
`SELECT` yields `NULL`, so the value component is an `Option Int`. -/
def check_tickets_remaining (event_id : Nat) (ttl now : Int) (db : DB) : DB × Option Int :=
  let tickets := sweep_expired event_id ttl now db.tickets
  let tickets_taken_ := count_taken event_id tickets
  let events := set_tickets_taken event_id tickets_taken_ db.events
  (⟨events, tickets⟩, select_remaining event_id events)

/-- SQL string concatenation `||`: `NULL` if either operand is `NULL`. -/
def sqlConcat : Option String → Option String → Option String
  | some a, some b => some (a ++ b)
  | _, _ => none

/-- `full_name(first_name, last_name, email)`:
`coalesce(first_name || ' ' || last_name, first_name, last_name, email)`. -/
def full_name (first_name last_name email : Option String) : Option String :=
  sqlConcat (sqlConcat first_name (some " ")) last_name <|> first_name <|> last_name <|> email

/-- A row of the `users` table; `email` stands for the profile fields the
trigger must not touch, `active_ts` is the last-activity timestamp. -/
structure User where
  id : Nat
  email : String
  active_ts : Int
deriving DecidableEq, Repr

/-- A row of the `actions` table (only the `user_id` column matters to the
trigger). -/
structure ActionRow where
  user_id : Nat
deriving DecidableEq, Repr

/-- The trigger body: `UPDATE users SET active_ts=now() WHERE id=NEW.user_id`. -/
def update_user_ts (user_id : Nat) (now : Int) (users : List User) : List User :=
  users.map fun u => if u.id = user_id then { u with active_ts := now } else u

/-- State for the audit trigger: `users` and `actions` tables. -/
structure AuditDB where
  users : List User
  actions : List ActionRow
deriving DecidableEq, Repr

/-- Inserting an `actions` row fires the `AFTER INSERT` trigger
`update_user_ts` on the `users` table. -/
def insert_action (a : ActionRow) (now : Int) (db : AuditDB) : AuditDB :=
  { users := update_user_ts a.user_id now db.users, actions := db.actions ++ [a] }

/-- The audit states reached after each insertion of a timed sequence of
actions. -/
def states (db : AuditDB) : List (ActionRow × Int) → List AuditDB
  | [] => []
  | (a, n) :: rest =>
    let db' := insert_action a n db
    db' :: states db' rest

/-- Relation between two successive audit states: every user row keeps its
identity and profile fields and its `active_ts` never decreases. -/
def users_mono (d1 d2 : AuditDB) : Prop :=
  List.Forall₂ (fun o u => u.id = o.id ∧ u.email = o.email ∧ o.active_ts ≤ u.active_ts)
    d1.users d2.users

/-- Worked example of the spec: `ticket_limit=10`, eight `paid` tickets and
three `reserved` tickets created 120 seconds before the call at `now = 1000`. -/
def exampleEventDB : DB :=
  ⟨[⟨1, 10, 11⟩],
   [⟨1, 1, .paid, 0⟩, ⟨2, 1, .paid, 0⟩, ⟨3, 1, .paid, 0⟩, ⟨4, 1, .paid, 0⟩,
    ⟨5, 1, .paid, 0⟩, ⟨6, 1, .paid, 0⟩, ⟨7, 1, .paid, 0⟩, ⟨8, 1, .paid, 0⟩,
    ⟨9, 1, .reserved, 880⟩, ⟨10, 1, .reserved, 880⟩, ⟨11, 1, .reserved, 880⟩]⟩

/-- State expected after the worked example: the three stale reservations are
gone and the counter is 8. -/
def exampleEventDBAfter : DB :=
  ⟨[⟨1, 10, 8⟩],
   [⟨1, 1, .paid, 0⟩, ⟨2, 1, .paid, 0⟩, ⟨3, 1, .paid, 0⟩, ⟨4, 1, .paid, 0⟩,
    ⟨5, 1, .paid, 0⟩, ⟨6, 1, .paid, 0⟩, ⟨7, 1, .paid, 0⟩, ⟨8, 1, .paid, 0⟩]⟩

/-- On an event id matched by no event row (and, by the foreign key, by no
ticket row), the function deletes nothing, updates nothing, and its final
scalar `SELECT` yields `NULL`. -/
lemma check_absent (event_id : Nat) (ttl now : Int) (db : DB)
    (hev : ∀ e ∈ db.events, e.id ≠ event_id)
    (htk : ∀ t ∈ db.tickets, t.event ≠ event_id) :
    check_tickets_remaining event_id ttl now db = (db, none) := by
  have hsweep : sweep_expired event_id ttl now db.tickets = db.tickets := by
    apply List.filter_eq_self.mpr
    intro t ht
    simp [isExpiredReserved, htk t ht]
  have hset : ∀ n, set_tickets_taken event_id n db.events = db.events := by
    intro n
    have h1 : set_tickets_taken event_id n db.events = db.events.map (fun e => e) :=
      List.map_congr_left (fun e he => by simp [hev e he])
    simpa using h1
  have hfind : db.events.find? (fun e => e.id == event_id) = none := by
    apply List.find?_eq_none.mpr
    intro e he
    simp [hev e he]
  unfold check_tickets_remaining select_remaining
  simp [hsweep, hset, hfind]

/-- The `UPDATE` of `tickets_taken` does not change which event row the final
`SELECT` finds, only that row's counter. -/
lemma find?_set_tickets_taken (event_id : Nat) (n : Int) (events : List Event) :
    (set_tickets_taken event_id n events).find? (fun e => e.id == event_id)
      = (events.find? fun e => e.id == event_id).map
          fun e => if e.id = event_id then { e with tickets_taken := n } else e := by
  unfold set_tickets_taken
  rw [List.find?_map]
  have hpf : ((fun e => e.id == event_id) ∘
        fun e : Event => if e.id = event_id then { e with tickets_taken := n } else e)
      = fun e : Event => e.id == event_id := by
    funext e
    by_cases h : e.id = event_id <;> simp [Function.comp, h]
  rw [hpf]

/-- Sweeping an already swept ticket list removes nothing further. -/
lemma sweep_expired_idem (event_id : Nat) (ttl now : Int) (tickets : List Ticket) :
    sweep_expired event_id ttl now (sweep_expired event_id ttl now tickets)
      = sweep_expired event_id ttl now tickets := by
  unfold sweep_expired
  rw [List.filter_filter]
  congr 1
  funext t
  exact Bool.and_self _

/-- Writing the same `tickets_taken` value twice is the same as writing it
once. -/
lemma set_tickets_taken_idem (event_id : Nat) (n : Int) (events : List Event) :
    set_tickets_taken event_id n (set_tickets_taken event_id n events)
      = set_tickets_taken event_id n events := by
  unfold set_tickets_taken
  rw [List.map_map]
  apply List.map_congr_left
  intro e _
  by_cases h : e.id = event_id <;> simp [Function.comp, h]

/-- One action insertion relates the old and new audit state by `users_mono`,
provided every user's `active_ts` is at most the insertion time. -/
lemma users_mono_step (a : ActionRow) (n : Int) (db : AuditDB)
    (hb : ∀ u ∈ db.users, u.active_ts ≤ n) : users_mono db (insert_action a n db) := by
  unfold users_mono insert_action update_user_ts
  rw [List.forall₂_map_right_iff, List.forall₂_same]
  intro u hu
  by_cases h : u.id = a.user_id <;> simp [h, hb u hu]

/-- Along a run of action insertions at pairwise non-decreasing times that
all dominate the initial `active_ts` values, consecutive audit states are
related by `users_mono`. -/
lemma chain_users_mono (L : List (ActionRow × Int)) (db : AuditDB)
    (hpair : List.Pairwise (· ≤ ·) (L.map Prod.snd))
    (hinit : ∀ u ∈ db.users, ∀ t ∈ L.map Prod.snd, u.active_ts ≤ t) :
    List.Chain users_mono db (states db L) := by
  induction L generalizing db with
  | nil => exact List.Chain.nil
  | cons p rest ih =>
    obtain ⟨a, n⟩ := p
    simp only [states]
    obtain ⟨hn, hrest⟩ := List.pairwise_cons.mp hpair
    refine List.Chain.cons
      (users_mono_step a n db (fun u hu => hinit u hu n (by simp)))
      (ih (insert_action a n db) hrest ?_)
    intro u hu t htt
    have hu' : u ∈ List.map
        (fun v => if v.id = a.user_id then { v with active_ts := n } else v) db.users := hu
    obtain ⟨u₀, hu₀, rfl⟩ := List.mem_map.mp hu'
    by_cases h : u₀.id = a.user_id
    · simpa [h] using hn t htt
    · simpa [h] using hinit u₀ hu₀ t (List.mem_cons_of_mem _ htt)

/-- C1: immediately after any call of `check_tickets_remaining` on an event
id, every event row carrying that id stores in `tickets_taken` exactly the
count of that event's non-cancelled (reserved or paid) tickets in the
resulting database, whatever the prior state was. -/
theorem check_tickets_taken_invariant (event_id : Nat) (ttl now : Int) (db : DB)
    (e : Event) (he : e ∈ (check_tickets_remaining event_id ttl now db).1.events)
    (hid : e.id = event_id) :
    e.tickets_taken
      = count_taken event_id (check_tickets_remaining event_id ttl now db).1.tickets := by
  have he' : e ∈ set_tickets_taken event_id
      (count_taken event_id (sweep_expired event_id ttl now db.tickets)) db.events := he
  show e.tickets_taken = count_taken event_id (sweep_expired event_id ttl now db.tickets)
  unfold set_tickets_taken at he'
  obtain ⟨e₀, he₀, heq⟩ := List.mem_map.mp he'
  by_cases h : e₀.id = event_id
  · rw [if_pos h] at heq
    rw [← heq]
  · rw [if_neg h] at heq
    rw [← heq] at hid
    exact absurd hid h

/-- Witness for C1 at a one-event, one-paid-ticket database whose stale
counter 99 is repaired to 1 by the call. -/
theorem check_tickets_taken_invariant_witness :
    Event.mk 1 10 1 ∈
        (check_tickets_remaining 1 60 100
          (DB.mk [Event.mk 1 10 99] [Ticket.mk 1 1 TicketStatus.paid 0])).1.events
    ∧ (Event.mk 1 10 1).id = 1
    ∧ (Event.mk 1 10 1).tickets_taken
        = count_taken 1 (check_tickets_remaining 1 60 100
            (DB.mk [Event.mk 1 10 99] [Ticket.mk 1 1 TicketStatus.paid 0])).1.tickets :=
  ⟨by decide, rfl,
    check_tickets_taken_invariant 1 60 100 _ _ (by decide) rfl⟩

/-- C2: on an existing event the call returns `ticket_limit` minus the freshly
recomputed post-sweep count (which may make the result negative); the worked
example (`ticket_limit=10`, 8 paid, 3 reserved aged 120 s, `ttl=60`) deletes
the three reservations, persists `tickets_taken = 8` and returns 2; with
`ticket_limit=1` and three paid tickets the result is `-2`. -/
theorem check_tickets_remaining_value (event_id : Nat) (ttl now : Int) (db : DB) (e₀ : Event)
    (h : db.events.find? (fun e => e.id == event_id) = some e₀) :
    ((check_tickets_remaining event_id ttl now db).2
        = some (e₀.ticket_limit
            - count_taken event_id (check_tickets_remaining event_id ttl now db).1.tickets))
    ∧ check_tickets_remaining 1 60 1000 exampleEventDB = (exampleEventDBAfter, some 2)
    ∧ (check_tickets_remaining 1 60 0
        (DB.mk [Event.mk 1 1 0]
          [Ticket.mk 1 1 TicketStatus.paid 0, Ticket.mk 2 1 TicketStatus.paid 0,
           Ticket.mk 3 1 TicketStatus.paid 0])).2 = some (-2) := by
  refine ⟨?_, by decide, by decide⟩
  show select_remaining event_id
      (set_tickets_taken event_id
        (count_taken event_id (sweep_expired event_id ttl now db.tickets)) db.events)
    = some (e₀.ticket_limit - count_taken event_id (sweep_expired event_id ttl now db.tickets))
  have he₀ : e₀.id = event_id := by simpa using List.find?_some h
  unfold select_remaining
  rw [find?_set_tickets_taken, h]
  simp [he₀]

/-- Witness for C2 on the worked example database. -/
theorem check_tickets_remaining_value_witness :
    (check_tickets_remaining 1 60 1000 exampleEventDB).2
      = some ((10 : Int)
          - count_taken 1 (check_tickets_remaining 1 60 1000 exampleEventDB).1.tickets) :=
  (check_tickets_remaining_value 1 60 1000 exampleEventDB ⟨1, 10, 11⟩ (by decide)).1

/-- C3 counterexample: calling `check_tickets_remaining` with the unknown
event id 1 against a database holding only event 2 completes normally with
value `NULL` (`none`) and leaves every row unchanged — it does not fail with
a NotFound error, contrary to the claim. -/
theorem check_missing_event_counterexample :
    check_tickets_remaining 1 60 0 (DB.mk [Event.mk 2 5 0] [Ticket.mk 1 2 TicketStatus.paid 0])
      = (DB.mk [Event.mk 2 5 0] [Ticket.mk 1 2 TicketStatus.paid 0], none) := by decide

/-- C3 (amended): for an event id referencing no Event row (hence, by the
foreign key, no Ticket row), the call completes without error, returns `NULL`,
and mutates no Event or Ticket row. -/
theorem check_missing_event_returns_null (event_id : Nat) (ttl now : Int) (db : DB)
    (hev : ∀ e ∈ db.events, e.id ≠ event_id)
    (htk : ∀ t ∈ db.tickets, t.event ≠ event_id) :
    check_tickets_remaining event_id ttl now db = (db, none) :=
  check_absent event_id ttl now db hev htk

/-- Witness for the amended C3. -/
theorem check_missing_event_returns_null_witness :
    check_tickets_remaining 1 60 0 (DB.mk [Event.mk 2 5 0] [Ticket.mk 2 2 TicketStatus.reserved 0])
      = (DB.mk [Event.mk 2 5 0] [Ticket.mk 2 2 TicketStatus.reserved 0], none) :=
  check_missing_event_returns_null 1 60 0 _ (by decide) (by decide)

/-- C4 counterexample: a ticket reserved at `T = 0` with `ttl = 60` is NOT
deleted by a call at `now = 60` (= `T + ttl`, the claim says time ≥ `T + ttl`
suffices): the sweep's comparison is strict, the ticket survives and is
counted, so the call returns `10 - 1 = 9`. -/
theorem sweep_at_exact_ttl_counterexample :
    check_tickets_remaining 1 60 60 (DB.mk [Event.mk 1 10 1] [Ticket.mk 1 1 TicketStatus.reserved 0])
      = (DB.mk [Event.mk 1 10 1] [Ticket.mk 1 1 TicketStatus.reserved 0], some 9) := by decide

/-- C4 (amended): the sweep deletes exactly the tickets of the event whose
status is `reserved` and whose age `now - created_ts` STRICTLY exceeds `ttl`
(a reserved ticket created at `T` is deleted by any call at time `> T + ttl`);
paid and cancelled tickets, reserved tickets aged at most `ttl`, and tickets
of other events always survive. -/
theorem sweep_deletes_exactly_expired (event_id : Nat) (ttl now : Int) (db : DB)
    (t : Ticket) (ht : t ∈ db.tickets) :
    t ∈ (check_tickets_remaining event_id ttl now db).1.tickets
      ↔ ¬(t.status = TicketStatus.reserved ∧ t.event = event_id ∧ now - t.created_ts > ttl) := by
  show t ∈ sweep_expired event_id ttl now db.tickets ↔ _
  simp only [sweep_expired, List.mem_filter, isExpiredReserved, ht, true_and,
    Bool.not_eq_true', decide_eq_false_iff_not]

/-- Witness for the amended C4: the reserved ticket aged 61 s is swept at
`ttl = 60`. -/
theorem sweep_deletes_exactly_expired_witness :
    Ticket.mk 1 1 TicketStatus.reserved 0 ∈
        (DB.mk [Event.mk 1 10 1] [Ticket.mk 1 1 TicketStatus.reserved 0]).tickets
    ∧ (Ticket.mk 1 1 TicketStatus.reserved 0 ∈
          (check_tickets_remaining 1 60 61
            (DB.mk [Event.mk 1 10 1] [Ticket.mk 1 1 TicketStatus.reserved 0])).1.tickets
        ↔ ¬((Ticket.mk 1 1 TicketStatus.reserved 0).status = TicketStatus.reserved
            ∧ (Ticket.mk 1 1 TicketStatus.reserved 0).event = 1
            ∧ (61 : Int) - (Ticket.mk 1 1 TicketStatus.reserved 0).created_ts > 60)) :=
  ⟨by decide, sweep_deletes_exactly_expired 1 60 61 _ _ (by decide)⟩

/-- C5: with no new activity and no clock advance between them, a second call
of `check_tickets_remaining` returns the same remaining capacity as the first
and leaves the ticket set and `tickets_taken` unchanged — the whole result
pair of the second call equals that of the first. -/
theorem check_tickets_remaining_idempotent (event_id : Nat) (ttl now : Int) (db : DB) :
    check_tickets_remaining event_id ttl now (check_tickets_remaining event_id ttl now db).1
      = check_tickets_remaining event_id ttl now db := by
  show (DB.mk (set_tickets_taken event_id
          (count_taken event_id (sweep_expired event_id ttl now
            (sweep_expired event_id ttl now db.tickets)))
          (set_tickets_taken event_id
            (count_taken event_id (sweep_expired event_id ttl now db.tickets)) db.events))
        (sweep_expired event_id ttl now (sweep_expired event_id ttl now db.tickets)),
       select_remaining event_id
        (set_tickets_taken event_id
          (count_taken event_id (sweep_expired event_id ttl now
            (sweep_expired event_id ttl now db.tickets)))
          (set_tickets_taken event_id
            (count_taken event_id (sweep_expired event_id ttl now db.tickets)) db.events)))
      = (DB.mk (set_tickets_taken event_id
            (count_taken event_id (sweep_expired event_id ttl now db.tickets)) db.events)
          (sweep_expired event_id ttl now db.tickets),
         select_remaining event_id
          (set_tickets_taken event_id
            (count_taken event_id (sweep_expired event_id ttl now db.tickets)) db.events))
  rw [sweep_expired_idem, set_tickets_taken_idem]

/-- C7: `full_name` prefers "first last" when both names are present, falls
back to whichever single name is present, and to the email when both are
`NULL`; checked on the spec's three examples. -/
theorem full_name_spec :
    (∀ f l e, full_name (some f) (some l) e = some (f ++ " " ++ l))
    ∧ (∀ l e, full_name none (some l) e = some l)
    ∧ (∀ f e, full_name (some f) none e = some f)
    ∧ (∀ e, full_name none none e = e)
    ∧ full_name (some "Jo") (some "Smith") (some "a@b.com") = some "Jo Smith"
    ∧ full_name none (some "Smith") (some "a@b.com") = some "Smith"
    ∧ full_name none none (some "a@b.com") = some "a@b.com" := by
  refine ⟨?_, ?_, ?_, ?_, rfl, rfl, rfl⟩ <;> intros <;>
    simp [full_name, sqlConcat, String.append_assoc]

/-- C8: inserting an action row sets the acting user's `active_ts` to the
current time and touches no other user field, and along any run of insertions
at a non-decreasing clock that dominates the initial timestamps, every user's
`active_ts` is non-decreasing from each audit state to the next. -/
theorem action_updates_active_ts (L : List (ActionRow × Int)) (db : AuditDB)
    (hclock : List.Chain' (· ≤ ·) (L.map Prod.snd))
    (hinit : ∀ u ∈ db.users, ∀ t ∈ L.map Prod.snd, u.active_ts ≤ t) :
    (∀ (a : ActionRow) (n : Int) (d : AuditDB),
        List.Forall₂ (fun o u => u.id = o.id ∧ u.email = o.email ∧
            u.active_ts = if o.id = a.user_id then n else o.active_ts)
          d.users (insert_action a n d).users)
    ∧ List.Chain users_mono db (states db L) := by
  constructor
  · intro a n d
    unfold insert_action update_user_ts
    rw [List.forall₂_map_right_iff, List.forall₂_same]
    intro u _
    by_cases h : u.id = a.user_id <;> simp [h]
  · exact chain_users_mono L db (List.chain'_iff_pairwise.mp hclock) hinit

/-- Witness for C8: a user last seen at 0 acts at times 5 and 7. -/
theorem action_updates_active_ts_witness :
    (∀ (a : ActionRow) (n : Int) (d : AuditDB),
        List.Forall₂ (fun o u => u.id = o.id ∧ u.email = o.email ∧
            u.active_ts = if o.id = a.user_id then n else o.active_ts)
          d.users (insert_action a n d).users)
    ∧ List.Chain users_mono (AuditDB.mk [User.mk 1 "x" 0] [])
        (states (AuditDB.mk [User.mk 1 "x" 0] [])
          [(ActionRow.mk 1, 5), (ActionRow.mk 1, 7)]) :=
  action_updates_active_ts [(ActionRow.mk 1, 5), (ActionRow.mk 1, 7)]
    (AuditDB.mk [User.mk 1 "x" 0] []) (by simp) (by decide)

/-- C9: for an event id referencing no Event row (and, by the foreign key, no
Ticket row), the call completes without raising any error, its value is `NULL`
because the final `SELECT` yields no row, and every Event and Ticket row is
left unchanged. -/
theorem check_missing_event_no_mutation (event_id : Nat) (ttl now : Int) (db : DB)
    (hev : ∀ e ∈ db.events, e.id ≠ event_id)
    (htk : ∀ t ∈ db.tickets, t.event ≠ event_id) :
    (check_tickets_remaining event_id ttl now db).2 = none
    ∧ (check_tickets_remaining event_id ttl now db).1 = db := by
  rw [check_absent event_id ttl now db hev htk]
  exact ⟨rfl, rfl⟩

/-- Witness for C9. -/
theorem check_missing_event_no_mutation_witness :
    (check_tickets_remaining 7 30 100 (DB.mk [Event.mk 2 5 1] [Ticket.mk 3 2 TicketStatus.paid 0])).2 = none
    ∧ (check_tickets_remaining 7 30 100 (DB.mk [Event.mk 2 5 1] [Ticket.mk 3 2 TicketStatus.paid 0])).1
      = DB.mk [Event.mk 2 5 1] [Ticket.mk 3 2 TicketStatus.paid 0] :=
  check_missing_event_no_mutation 7 30 100 _ (by decide) (by decide)

/-- C10: an empty string is a present name, not an absent one: with an empty
first name the result is the last name with a leading space, with an empty
last name it is the first name with a trailing space — never the single-name
or email fallbacks. -/
theorem full_name_empty_string :
    (∀ l e, full_name (some "") (some l) e = some (" " ++ l))
    ∧ (∀ f e, full_name (some f) (some "") e = some (f ++ " ")) := by
  constructor <;> intros <;> simp [full_name, sqlConcat]

end Nosht
